import Mathlib

/-!
Shallow embedding of the chat interaction core of `src/src/Demo.tsx`
(the `Chat` React component of the Selecty stylist-consultation widget),
together with the teardown behaviour of the enclosing
`StylistConsultationService` component.

The embedding keeps the source's names where Lean allows it:
`handleSendMessage`, `startCamera`, `captureImage`, `stopCamera`,
`handleFileUpload` (its `onload` continuation), and the reply `setTimeout`
callback (`fireReply`).  React state hooks become fields of `Session`;
`setState` calls become record updates; the DOM refs `videoRef`/`canvasRef`
are present exactly when the attachment UI is rendered
(`showImageUpload = true`), since the `video`/`canvas` elements only occur
in that branch of the JSX.  Media streams returned by `getUserMedia` are
modelled by the liveness of their tracks; the `srcObject` of the video
element is the index of the bound stream.  `setTimeout` arms a reply
timer; unmounting the component (back navigation) performs no cleanup in
the source (there is no `useEffect` and no `clearTimeout`), and a React
state update that reaches an unmounted component is dropped, which the
timer-firing step reflects via the `mounted` flag.
-/

/-- The `sender` field of the source's `Message` type: `'user' | 'stylist'`. -/
inductive Sender where
  | user
  | stylist
deriving DecidableEq, Repr

/-- The source's `Message` interface: `{ text: string; sender; image?: string | null }`. -/
structure Message where
  text : String
  sender : Sender
  image : Option String
deriving DecidableEq, Repr

/-- JS whitespace as recognised by `String.prototype.trim`:
WhiteSpace (TAB, VT, FF, SP, NBSP, ZWNBSP, Unicode Zs) and
LineTerminator (LF, CR, LS, PS). -/
def isJsWhitespace (c : Char) : Bool :=
  c.val = 0x9 || c.val = 0xA || c.val = 0xB || c.val = 0xC || c.val = 0xD ||
  c.val = 0x20 || c.val = 0xA0 || c.val = 0x1680 ||
  (0x2000 ≤ c.val && c.val ≤ 0x200A) ||
  c.val = 0x2028 || c.val = 0x2029 || c.val = 0x202F || c.val = 0x205F ||
  c.val = 0x3000 || c.val = 0xFEFF

/-- JS `String.prototype.trim`: strip leading and trailing whitespace. -/
def jsTrim (s : String) : String :=
  String.mk (((s.data.dropWhile isJsWhitespace).reverse.dropWhile isJsWhitespace).reverse)

/-- JS truthiness of a string: truthy iff non-empty. -/
def strTruthy (s : String) : Bool :=
  !(s == "")

/-- JS truthiness of a `string | null` value: truthy iff non-null and non-empty. -/
def optStrTruthy : Option String → Bool
  | none => false
  | some s => strTruthy s

/-- The fixed placeholder reply text of the `setTimeout` callback in
`handleSendMessage`. -/
def replyText : String :=
  "スタイリストからの返信をお待ちください。"

/-- State of one `Chat` session (the React state hooks of `Chat`, the media
streams handed out by `getUserMedia`, the video element's `srcObject`, the
armed reply timers, and whether the component is still mounted). A stream is
a list of track-liveness flags. -/
structure Session where
  messages : List Message
  inputMessage : String
  showImageUpload : Bool
  capturedImage : Option String
  streams : List (List Bool)
  srcObject : Option Nat
  pendingReplies : Nat
  mounted : Bool
deriving DecidableEq, Repr

/-- The state of a freshly mounted `Chat` component:
`useState([])`, `useState('')`, `useState(false)`, `useState(null)`,
no stream allocated, no timer armed. -/
def initialSession : Session :=
  { messages := []
    inputMessage := ""
    showImageUpload := false
    capturedImage := none
    streams := []
    srcObject := none
    pendingReplies := 0
    mounted := true }

/-- The user-message append inside `handleSendMessage`:
`setMessages([...messages, { text: inputMessage, sender: 'user', image: capturedImage }])`. -/
def appendUserMessage (msgs : List Message) (text : String) (img : Option String) :
    List Message :=
  msgs ++ [{ text := text, sender := Sender.user, image := img }]

/-- The provider-message append inside the reply `setTimeout` callback:
`setMessages(prev => [...prev, { text: "...", sender: 'stylist' }])`. -/
def appendProviderMessage (msgs : List Message) : List Message :=
  msgs ++ [{ text := replyText, sender := Sender.stylist, image := none }]

/-- `handleSendMessage`: guarded by `inputMessage.trim() || capturedImage`
(JS truthiness); on the truthy branch appends the user message, clears the
input and the staged image, and arms one reply timer (`setTimeout`, 1000 ms). -/
def handleSendMessage (s : Session) : Session :=
  if strTruthy (jsTrim s.inputMessage) || optStrTruthy s.capturedImage then
    { s with
      messages := appendUserMessage s.messages s.inputMessage s.capturedImage
      inputMessage := ""
      capturedImage := none
      pendingReplies := s.pendingReplies + 1 }
  else s

/-- `startCamera` success path: `getUserMedia` yields a fresh stream of `n`
live tracks; then `if (videoRef.current) videoRef.current.srcObject = stream`.
The previously bound stream is neither stopped nor rejected. The failure path
(catch) logs and changes nothing, so it is the identity and not modelled
separately. -/
def startCamera (n : Nat) (s : Session) : Session :=
  let sid := s.streams.length
  let s1 := { s with streams := s.streams ++ [List.replicate n true] }
  if s1.showImageUpload then { s1 with srcObject := some sid } else s1

/-- `stopCamera`: `if (videoRef.current && videoRef.current.srcObject)` stop
every track of the bound stream (`getTracks().forEach(track => track.stop())`).
`srcObject` is not cleared. -/
def stopCamera (s : Session) : Session :=
  if s.showImageUpload then
    match s.srcObject with
    | some sid =>
        { s with streams := s.streams.set sid ((s.streams.getD sid []).map fun _ => false) }
    | none => s
  else s

/-- `captureImage`: `if (canvasRef.current && videoRef.current)` draw the
current video frame, encode it (`toDataURL`, here the parameter `frame`),
stage it (`setCapturedImage(imageDataUrl)`), then `stopCamera()`.  The guard
checks only that the elements are mounted, not that a stream is bound. -/
def captureImage (frame : String) (s : Session) : Session :=
  if s.showImageUpload then
    stopCamera { s with capturedImage := some frame }
  else s

/-- The `reader.onload` continuation of `handleFileUpload`:
`setCapturedImage(e.target?.result as string)`. -/
def handleFileUpload (data : String) (s : Session) : Session :=
  { s with capturedImage := some data }

/-- One reply `setTimeout` firing.  The callback always runs (nothing in the
source cancels it); its `setMessages(prev => [...prev, ...])` takes effect
only if the component is still mounted — React drops state updates addressed
to an unmounted component. -/
def fireReply (s : Session) : Session :=
  if s.pendingReplies = 0 then s
  else
    let s1 := { s with pendingReplies := s.pendingReplies - 1 }
    if s1.mounted then { s1 with messages := appendProviderMessage s1.messages } else s1

/-- Back navigation: `onBack` sets `selectedStylist` to `null`, unmounting
`Chat`.  The source has no `useEffect` cleanup: no timer is cleared and no
camera track is stopped on this path. -/
def teardown (s : Session) : Session :=
  { s with mounted := false }

/-- Firing `k` reply timers in sequence. -/
def fireK : Nat → Session → Session
  | 0, s => s
  | k + 1, s => fireK k (fireReply s)

/-- Every event that mutates the session state in the source. `openUpload` /
`closeUpload` are the 画像を送信 / 完了 buttons (`setShowImageUpload`);
closing unmounts the `video` element, so its `srcObject` binding is lost;
`clearStaged` is the close button on the staged-image preview
(`setCapturedImage(null)`); `setInput` is the text field's `onChange`. -/
inductive SessionOp where
  | send
  | startCam (n : Nat)
  | capture (frame : String)
  | stopCam
  | fileLoaded (data : String)
  | clearStaged
  | setInput (t : String)
  | openUpload
  | closeUpload
  | fire
  | back

/-- Interpretation of one event on the session state. -/
def stepSession : SessionOp → Session → Session
  | SessionOp.send => handleSendMessage
  | SessionOp.startCam n => startCamera n
  | SessionOp.capture f => captureImage f
  | SessionOp.stopCam => stopCamera
  | SessionOp.fileLoaded d => handleFileUpload d
  | SessionOp.clearStaged => fun s => { s with capturedImage := none }
  | SessionOp.setInput t => fun s => { s with inputMessage := t }
  | SessionOp.openUpload => fun s => { s with showImageUpload := true }
  | SessionOp.closeUpload => fun s => { s with showImageUpload := false, srcObject := none }
  | SessionOp.fire => fireReply
  | SessionOp.back => teardown

/-- A timeline append call: a user append (with its text and optional image)
or a provider append (always the fixed placeholder). -/
inductive TimelineOp where
  | user (text : String) (img : Option String)
  | provider

/-- Apply one timeline append. -/
def applyOp (msgs : List Message) : TimelineOp → List Message
  | TimelineOp.user t i => appendUserMessage msgs t i
  | TimelineOp.provider => appendProviderMessage msgs

/-- Apply a sequence of timeline appends in call order. -/
def applyOps (msgs : List Message) (ops : List TimelineOp) : List Message :=
  ops.foldl applyOp msgs

/-- The message produced by one timeline append. -/
def opMessage : TimelineOp → Message
  | TimelineOp.user t i => { text := t, sender := Sender.user, image := i }
  | TimelineOp.provider => { text := replyText, sender := Sender.stylist, image := none }

/-! ## Helper lemmas (shared) -/

/-- `stopCamera` leaves every field other than `streams` unchanged. -/
theorem stopCamera_capturedImage (s : Session) :
    (stopCamera s).capturedImage = s.capturedImage := by
  unfold stopCamera
  split
  · split <;> rfl
  · rfl

/-- `stopCamera` does not clear the `srcObject` binding. -/
theorem stopCamera_srcObject (s : Session) :
    (stopCamera s).srcObject = s.srcObject := by
  unfold stopCamera
  split
  · split <;> rfl
  · rfl

/-- `stopCamera` leaves the timeline unchanged. -/
theorem stopCamera_messages (s : Session) :
    (stopCamera s).messages = s.messages := by
  unfold stopCamera
  split
  · split <;> rfl
  · rfl

/-- Reading back the slot just overwritten by `List.set`. -/
theorem getD_set_self (l : List (List Bool)) (i : Nat) (v : List Bool) :
    (l.set i v).getD i [] = if i < l.length then v else [] := by
  induction l generalizing i with
  | nil => simp
  | cons a l ih =>
      cases i with
      | zero => simp [List.getD]
      | succ n => simpa [List.getD] using ih n

/-- When a stream is bound and the attachment UI is mounted, `stopCamera`
overwrites the bound stream's tracks with stopped ones. -/
theorem stopCamera_streams_eq (s : Session) (sid : Nat)
    (hui : s.showImageUpload = true) (hb : s.srcObject = some sid) :
    (stopCamera s).streams =
      s.streams.set sid ((s.streams.getD sid []).map fun _ => false) := by
  unfold stopCamera
  rw [hui, hb]
  simp

/-- When a stream is bound and the attachment UI is mounted, `stopCamera`
stops every track of the bound stream. -/
theorem stopCamera_stops_tracks (s : Session) (sid : Nat)
    (hui : s.showImageUpload = true) (hb : s.srcObject = some sid) :
    ∀ b ∈ (stopCamera s).streams.getD sid [], b = false := by
  intro b hbmem
  rw [stopCamera_streams_eq s sid hui hb, getD_set_self] at hbmem
  split at hbmem
  · rcases List.mem_map.mp hbmem with ⟨x, _, hx⟩
    exact hx.symm
  · simp at hbmem

/-- A reply timer firing against an unmounted component appends nothing and
cannot remount it. -/
theorem fireReply_unmounted (s : Session) (h : s.mounted = false) :
    (fireReply s).messages = s.messages ∧ (fireReply s).mounted = false := by
  unfold fireReply
  split
  · exact ⟨rfl, h⟩
  · simp [h]

/-- Any number of reply timers firing against an unmounted component appends
nothing. -/
theorem fireK_unmounted (k : Nat) (s : Session) (h : s.mounted = false) :
    (fireK k s).messages = s.messages := by
  induction k generalizing s with
  | zero => rfl
  | succ n ih =>
      have h1 := fireReply_unmounted s h
      calc (fireK (n + 1) s).messages
          = (fireK n (fireReply s)).messages := rfl
        _ = (fireReply s).messages := ih (fireReply s) h1.2
        _ = s.messages := h1.1

/-- If the input is all JS whitespace, `jsTrim` yields the empty string. -/
theorem jsTrim_of_all_whitespace (s : String)
    (h : ∀ c ∈ s.data, isJsWhitespace c = true) : jsTrim s = "" := by
  unfold jsTrim
  rw [List.dropWhile_eq_nil_iff.mpr h]
  rfl

/-! ## Concrete states used by counterexamples and witnesses -/

/-- A session whose text input is a single space (whitespace only). -/
def wsSession : Session :=
  { initialSession with inputMessage := " " }

/-- A session with text "hi" typed and an image staged. -/
def hiSession : Session :=
  { initialSession with inputMessage := "hi", capturedImage := some "img" }

/-- A session right after one successful send of "hi" (one reply timer armed). -/
def sentSession : Session :=
  handleSendMessage { initialSession with inputMessage := "hi" }

/-- A session with the attachment UI open and no camera stream started. -/
def uploadSession : Session :=
  { initialSession with showImageUpload := true }

/-- A session with the attachment UI open after one `startCamera` success
granting a one-track stream (stream 0 bound and live). -/
def oneTrackSession : Session :=
  startCamera 1 uploadSession

/-- A session after a second `startCamera` success on `oneTrackSession`. -/
def doubleStart : Session :=
  startCamera 1 oneTrackSession

/-- A session with the attachment UI open and a two-track stream bound. -/
def streamingSession : Session :=
  startCamera 2 uploadSession

/-! ## Claims -/

/-- Claim C1, counterexample: the code does not cancel scheduled replies on
teardown.  After sending "hi" (arming one reply timer) and navigating back
before the 1000 ms delay elapses, the timer is still armed — and it later
fires (consuming itself) instead of having been cancelled. -/
theorem C1_counterexample :
    sentSession.pendingReplies = 1 ∧
    ¬ ((teardown sentSession).pendingReplies = 0) ∧
    (fireReply (teardown sentSession)).pendingReplies = 0 := by
  decide

/-- Claim C1, amended: teardown does not cancel outstanding scheduled
replies (every armed timer survives teardown and still fires), but a reply
firing after teardown appends nothing: the state update targets the
unmounted `Chat` component and is dropped, so zero provider messages are
appended to the timeline after teardown, for every session and every number
of timers fired. -/
theorem C1_teardown_no_append (s : Session) (k : Nat) :
    (teardown s).pendingReplies = s.pendingReplies ∧
    (fireK k (teardown s)).messages = s.messages := by
  refine ⟨rfl, ?_⟩
  exact fireK_unmounted k (teardown s) rfl

/-- Claim C2, counterexample: with text a single space (non-empty) and no
staged image, `handleSendMessage` appends nothing and changes no state —
the guard tests the trimmed text, not the raw text. -/
theorem C2_counterexample :
    wsSession.inputMessage ≠ "" ∧
    wsSession.capturedImage = none ∧
    handleSendMessage wsSession = wsSession := by
  decide

/-- Claim C2, amended: whenever the trimmed text is non-empty or a
(non-empty) image is staged, `send` appends exactly one USER message
carrying the raw text and the staged image at the tail, clears the text
input and the staged image, and arms exactly one reply timer. -/
theorem C2_send_success (s : Session)
    (h : (strTruthy (jsTrim s.inputMessage) || optStrTruthy s.capturedImage) = true) :
    (handleSendMessage s).messages =
      s.messages ++ [{ text := s.inputMessage, sender := Sender.user, image := s.capturedImage }] ∧
    (handleSendMessage s).inputMessage = "" ∧
    (handleSendMessage s).capturedImage = none ∧
    (handleSendMessage s).pendingReplies = s.pendingReplies + 1 := by
  unfold handleSendMessage
  rw [if_pos h]
  exact ⟨rfl, rfl, rfl, rfl⟩

/-- Witness for C2 at a concrete input: text "hi" with image "img" staged. -/
theorem C2_witness :
    (handleSendMessage hiSession).messages =
      hiSession.messages ++ [{ text := "hi", sender := Sender.user, image := some "img" }] ∧
    (handleSendMessage hiSession).inputMessage = "" ∧
    (handleSendMessage hiSession).capturedImage = none ∧
    (handleSendMessage hiSession).pendingReplies = hiSession.pendingReplies + 1 :=
  C2_send_success hiSession (by decide)

/-- Claim C3: sending with empty text and no staged image is the silent
failure branch (the spec's `EmptyMessage`): the whole session state —
timeline, text input, staged image, armed timers — is unchanged. -/
theorem C3_empty_send_noop (s : Session)
    (h1 : s.inputMessage = "") (h2 : s.capturedImage = none) :
    handleSendMessage s = s := by
  unfold handleSendMessage
  rw [h1, h2]
  have hc : (strTruthy (jsTrim "") || optStrTruthy none) = false := by decide
  rw [hc]
  simp

/-- Witness for C3 at the freshly mounted session. -/
theorem C3_witness : handleSendMessage initialSession = initialSession :=
  C3_empty_send_noop initialSession rfl rfl

/-- Claim C4: any sequence of user/provider appends yields the snapshot of
exactly those messages in call order appended after the existing ones; and
no session operation whatsoever removes or reorders existing messages —
every step's timeline extends the previous one at the tail. -/
theorem C4_timeline_append_only :
    (∀ (init : List Message) (ops : List TimelineOp),
      applyOps init ops = init ++ ops.map opMessage) ∧
    (∀ (op : SessionOp) (s : Session),
      ∃ t, (stepSession op s).messages = s.messages ++ t) := by
  constructor
  · intro init ops
    induction ops generalizing init with
    | nil => simp [applyOps]
    | cons op ops ih =>
        have h1 : applyOp init op = init ++ [opMessage op] := by
          cases op <;> rfl
        have h2 : applyOps init (op :: ops) = applyOps (applyOp init op) ops := rfl
        rw [h2, ih, h1, List.append_assoc]
        rfl
  · intro op s
    cases op with
    | send =>
        show ∃ t, (handleSendMessage s).messages = s.messages ++ t
        unfold handleSendMessage
        split
        · exact ⟨_, rfl⟩
        · exact ⟨[], by simp⟩
    | startCam n =>
        refine ⟨[], ?_⟩
        show (startCamera n s).messages = s.messages ++ []
        unfold startCamera
        dsimp only
        split <;> simp
    | capture f =>
        refine ⟨[], ?_⟩
        show (captureImage f s).messages = s.messages ++ []
        unfold captureImage
        split
        · rw [stopCamera_messages]
          simp
        · simp
    | stopCam =>
        refine ⟨[], ?_⟩
        show (stopCamera s).messages = s.messages ++ []
        rw [stopCamera_messages]
        simp
    | fileLoaded d => exact ⟨[], by simp [stepSession, handleFileUpload]⟩
    | clearStaged => exact ⟨[], by simp [stepSession]⟩
    | setInput t => exact ⟨[], by simp [stepSession]⟩
    | openUpload => exact ⟨[], by simp [stepSession]⟩
    | closeUpload => exact ⟨[], by simp [stepSession]⟩
    | fire =>
        show ∃ t, (fireReply s).messages = s.messages ++ t
        unfold fireReply
        split
        · exact ⟨[], by simp⟩
        · dsimp only
          split
          · exact ⟨_, rfl⟩
          · exact ⟨[], by simp⟩
    | back => exact ⟨[], by simp [stepSession, teardown]⟩

/-- Claim C5, counterexample: with the attachment UI open and no stream
ever started (`srcObject = none`), `captureImage` does not fail — it stages
a (blank) frame.  The guard checks only the `video`/`canvas` element refs,
so there is no `NoActiveStream` behaviour. -/
theorem C5_counterexample :
    uploadSession.srcObject = none ∧
    (captureImage "data:image/jpeg;base64,AAAA" uploadSession).capturedImage =
      some "data:image/jpeg;base64,AAAA" := by
  decide

/-- Claim C5, amended: `captureImage` requires the `video` and `canvas`
elements to be mounted (attachment UI open): when they are absent it is a
no-op and stages nothing; when they are present it stages the encoded frame
— whether or not a live stream is bound. -/
theorem C5_capture_guard (s : Session) (f : String) :
    (s.showImageUpload = false → captureImage f s = s) ∧
    (s.showImageUpload = true → (captureImage f s).capturedImage = some f) := by
  constructor
  · intro h
    unfold captureImage
    rw [h]
    simp
  · intro h
    unfold captureImage
    rw [h]
    simp only [if_pos]
    rw [stopCamera_capturedImage]

/-- Witness for C5: no-op outside the attachment UI; staging inside it. -/
theorem C5_witness :
    captureImage "d" initialSession = initialSession ∧
    (captureImage "d" uploadSession).capturedImage = some "d" :=
  ⟨(C5_capture_guard initialSession "d").1 rfl,
   (C5_capture_guard uploadSession "d").2 rfl⟩

/-- Claim C6 is violated by the code (`startCamera` neither stops the
previous stream nor rejects): after two successful `startCamera` calls the
first stream's track is still live while the second live stream is bound —
two live streams are held at once. -/
theorem C6_two_live_streams :
    doubleStart.streams = [[true], [true]] ∧
    doubleStart.srcObject = some 1 := by
  decide

/-- Claim C7: when `captureImage` takes its success branch (attachment UI
mounted), the staged image afterwards is exactly the captured frame, and if
a stream was bound every one of its tracks has been stopped (capture calls
`stopCamera` after staging). -/
theorem C7_capture_stages_and_stops (s : Session) (f : String)
    (h : s.showImageUpload = true) :
    (captureImage f s).capturedImage = some f ∧
    ∀ sid, s.srcObject = some sid →
      ∀ b ∈ (captureImage f s).streams.getD sid [], b = false := by
  have hc : captureImage f s = stopCamera { s with capturedImage := some f } := by
    unfold captureImage
    rw [h]
    simp
  constructor
  · rw [hc, stopCamera_capturedImage]
  · intro sid hsid b hb
    rw [hc] at hb
    exact stopCamera_stops_tracks { s with capturedImage := some f } sid h hsid b hb

/-- Witness for C7: capturing "d" with a two-track stream bound stages "d"
and leaves both tracks stopped. -/
theorem C7_witness :
    (captureImage "d" streamingSession).capturedImage = some "d" ∧
    (captureImage "d" streamingSession).streams = [[false, false]] :=
  ⟨(C7_capture_stages_and_stops streamingSession "d" (by decide)).1, by decide⟩

/-- Claim C8: the provider append is total (always succeeds), appends at
the tail exactly one message with sender `stylist` and the fixed
placeholder text, which is not empty. -/
theorem C8_provider_append (msgs : List Message) :
    appendProviderMessage msgs =
      msgs ++ [{ text := replyText, sender := Sender.stylist, image := none }] ∧
    replyText ≠ "" :=
  ⟨rfl, by decide⟩

/-- Claim C9, counterexample: with a one-track stream bound, `stopCamera`
stops the track but does not unbind the stream — `srcObject` still holds it
afterwards. -/
theorem C9_counterexample :
    oneTrackSession.srcObject = some 0 ∧
    (stopCamera oneTrackSession).srcObject = some 0 ∧
    (stopCamera oneTrackSession).streams = [[false]] := by
  decide

/-- Claim C9, amended: `stopCamera` never changes the `srcObject` binding;
when no stream is bound it is a complete no-op (no failure, no state
change); when a stream is bound (and the attachment UI is mounted, so the
video ref exists) it stops every track of the bound stream — but leaves it
bound. -/
theorem C9_stop_releases_tracks_only (s : Session) :
    (stopCamera s).srcObject = s.srcObject ∧
    (s.srcObject = none → stopCamera s = s) ∧
    (∀ sid, s.showImageUpload = true → s.srcObject = some sid →
      ∀ b ∈ (stopCamera s).streams.getD sid [], b = false) := by
  refine ⟨stopCamera_srcObject s, ?_, ?_⟩
  · intro h
    unfold stopCamera
    rw [h]
    split <;> rfl
  · intro sid h1 h2
    exact stopCamera_stops_tracks s sid h1 h2

/-- Witness for C9: no-op on the fresh session; binding survives a stop on
the streaming session. -/
theorem C9_witness :
    stopCamera initialSession = initialSession ∧
    (stopCamera oneTrackSession).srcObject = some 0 :=
  ⟨(C9_stop_releases_tracks_only initialSession).2.1 rfl,
   by rw [(C9_stop_releases_tracks_only oneTrackSession).1]; decide⟩

/-- Claim C10: the emptiness check of `send` is on the trimmed text — with
all-whitespace text and no staged image nothing is appended, no reply is
armed and no state changes — yet a successful send stores the original
untrimmed text in the appended message. -/
theorem C10_trimmed_guard_raw_text (s : Session) :
    ((∀ c ∈ s.inputMessage.data, isJsWhitespace c = true) → s.capturedImage = none →
      handleSendMessage s = s) ∧
    ((strTruthy (jsTrim s.inputMessage) || optStrTruthy s.capturedImage) = true →
      (handleSendMessage s).messages =
        s.messages ++
          [{ text := s.inputMessage, sender := Sender.user, image := s.capturedImage }]) := by
  constructor
  · intro hws hi
    unfold handleSendMessage
    rw [jsTrim_of_all_whitespace s.inputMessage hws, hi]
    have hc : (strTruthy "" || optStrTruthy none) = false := by decide
    rw [hc]
    simp
  · intro h
    unfold handleSendMessage
    rw [if_pos h]
    rfl

/-- Witness for C10: a single-space input sends nothing; sending "hi" with
image "img" stores the raw text. -/
theorem C10_witness :
    handleSendMessage wsSession = wsSession ∧
    (handleSendMessage hiSession).messages =
      hiSession.messages ++ [{ text := "hi", sender := Sender.user, image := some "img" }] :=
  ⟨(C10_trimmed_guard_raw_text wsSession).1 (by decide) rfl,
   (C10_trimmed_guard_raw_text hiSession).2 (by decide)⟩
